import Mathlib

/-!
Verification of the user-auth backend (`backend/user-auth/index.py`) of a
freelance-marketplace service: credential hashing, registration, login,
logout and session checking against a relational store.

The store is modelled as explicit lists of rows; each handler is a pure
function from the incoming request data and the database state to an HTTP
response together with the committed database state.  Nondeterministic
inputs of the real code (the random salt, the random session token, the
clock, and transient storage failures) are passed in as explicit
parameters; the PBKDF2 key-derivation primitive is an abstract function
parameter.  Strings are Lean strings, with Python's `strip`, `lower` and
`split(':')` modelled character-by-character on `String.data`.
-/

/-- Hex digest of `pbkdf2_hmac('sha256', password, salt, 100000)`, kept
abstract: the handlers are parameterised by this function. -/
def Pbkdf2 : Type := String → String → String

/-- `hash_password` of the source: a fresh random `salt` (produced by
`secrets.token_hex(16)` in the source, here an explicit parameter) and the
serialized form `salt:derivedHex`. -/
def hash_password (pbkdf2 : Pbkdf2) (salt password : String) : String :=
  salt ++ ":" ++ pbkdf2 password salt

/-- Python's `str.split(':')`: splits a character list at every colon. -/
def splitColon (cs : List Char) : List (List Char) :=
  match cs with
  | [] => [[]]
  | c :: rest =>
    let r := splitColon rest
    if c = ':' then [] :: r
    else
      match r with
      | h :: t => (c :: h) :: t
      | [] => [[c]]

/-- `verify_password` of the source: unpack `stored_hash.split(':')` into
exactly a salt and a hex digest (any other arity raises `ValueError`,
caught and turned into `False`), re-derive and compare. -/
def verify_password (pbkdf2 : Pbkdf2) (stored_hash password : String) : Bool :=
  match splitColon stored_hash.data with
  | [salt, hash_hex] => pbkdf2 password (String.mk salt) == String.mk hash_hex
  | _ => false

/-- Row of the `users` table. -/
structure UserRow where
  id : Nat
  email : String
  password_hash : String
  user_type : String
  first_name : String
  last_name : String
  is_active : Bool
  created_at : Nat
deriving DecidableEq

/-- Row of the `client_profiles` table. -/
structure ClientProfileRow where
  id : Nat
  user_id : Nat
deriving DecidableEq

/-- Row of the `freelancer_profiles` table. -/
structure FreelancerProfileRow where
  id : Nat
  user_id : Nat
  title : String
deriving DecidableEq

/-- Row of the `user_sessions` table. -/
structure SessionRow where
  user_id : Nat
  session_token : String
  expires_at : Nat
deriving DecidableEq

/-- The relational store: the four tables plus the sequences generating
fresh primary keys.  Timestamps are seconds. -/
structure DB where
  users : List UserRow
  client_profiles : List ClientProfileRow
  freelancer_profiles : List FreelancerProfileRow
  user_sessions : List SessionRow
  nextUserId : Nat
  nextClientProfileId : Nat
  nextFreelancerProfileId : Nat
deriving DecidableEq

/-- A storage-layer failure raised by a `cur.execute` or `conn.commit`
call: either the `users.email` unique constraint fired, or a transient
error at the numbered statement. -/
inductive DBErr where
  | uniqueViolation
  | transient (step : Nat)
deriving DecidableEq

/-- Stand-in for `str(e)` of a psycopg2 error. -/
def errMsg : DBErr → String
  | .uniqueViolation => "duplicate key value violates unique constraint"
  | .transient n => "connection failure at statement " ++ toString n

/-- User summary serialized into success bodies. -/
structure UserOut where
  id : Nat
  email : String
  userType : String
  firstName : String
  lastName : String
  profileId : Option Nat
deriving DecidableEq

/-- JSON body of a response. -/
inductive Body where
  | error (msg : String)
  | registered (message sessionToken : String) (user : UserOut)
  | loggedIn (message sessionToken : String) (user : UserOut)
  | loggedOut (message : String)
  | sessionInfo (valid : Bool) (user : UserOut)
deriving DecidableEq

/-- HTTP response of a handler (headers are constant CORS headers in the
source and are not modelled). -/
structure Response where
  statusCode : Nat
  body : Body
deriving DecidableEq

/-- Register request body: `body_data.get(field)`; `none` is a missing
key (or a JSON `null`). -/
structure RegisterData where
  email : Option String
  password : Option String
  userType : Option String
  firstName : Option String
  lastName : Option String
  title : Option String
deriving DecidableEq

/-- Login request body. -/
structure LoginData where
  email : Option String
  password : Option String
deriving DecidableEq

/-- Request headers: the two casings of the session-token header that the
source reads. -/
structure Headers where
  xSessionTokenLower : Option String
  xSessionTokenUpper : Option String
deriving DecidableEq

/-- Python `a or b` on optional strings: `a` unless it is `None` or
empty. -/
def pyOr (a b : Option String) : Option String :=
  match a with
  | some s => if s == "" then b else some s
  | none => b

/-- Python `data[field]` after a successful presence check (`.get` with
default `''` for login fields). -/
def pyGet (o : Option String) : String := o.getD ""

/-- Python `str.strip()`: drop whitespace from both ends. -/
def pyStrip (s : String) : String :=
  String.mk (((s.data.dropWhile Char.isWhitespace).reverse.dropWhile Char.isWhitespace).reverse)

/-- Python `str.lower()` (ASCII case folding suffices here). -/
def pyLower (s : String) : String := String.mk (s.data.map Char.toLower)

/-- Python truthiness test `not data.get(field)` for a string field. -/
def isBlank : Option String → Bool
  | none => true
  | some s => s == ""

/-- The `for field in required_fields` loop of `handle_register`: first
required field that is missing or empty, in the source's order. -/
def missingField (d : RegisterData) : Option String :=
  if isBlank d.email then some "email"
  else if isBlank d.password then some "password"
  else if isBlank d.userType then some "userType"
  else if isBlank d.firstName then some "firstName"
  else if isBlank d.lastName then some "lastName"
  else none

/-- `SELECT id FROM users WHERE email = %s` followed by `fetchone()`
truthiness. -/
def emailTaken (db : DB) (email : String) : Bool :=
  db.users.any (fun u => u.email == email)

/-- The normalized email `data['email'].lower().strip()` of a Register
request. -/
def normEmail (d : RegisterData) : String := pyStrip (pyLower (pyGet d.email))

/-- Failure oracle under which every storage statement succeeds. -/
def noFail : Nat → Bool := fun _ => false

/-- Fixed 30-day session TTL in seconds (`timedelta(days=30)`). -/
def sessionTtl : Nat := 30 * 86400

/-- Lines 156-194 of the source: hash the password, `INSERT` the user
row, the profile row matching the user type, and the session row, then
`conn.commit()`.  `failAt` decides which statement (1 = user insert,
2 = profile insert, 3 = session insert, 4 = commit) raises a transient
psycopg2 error; the user insert additionally raises if the
`users.email UNIQUE` constraint of the schema is violated. -/
def registerInsert (pbkdf2 : Pbkdf2) (salt token : String) (now : Nat)
    (failAt : Nat → Bool) (db : DB) (data : RegisterData)
    (email password user_type : String) : Except DBErr (Response × DB) :=
  let first_name := pyStrip (pyGet data.firstName)
  let last_name := pyStrip (pyGet data.lastName)
  let password_hash := hash_password pbkdf2 salt password
  if failAt 1 then .error (.transient 1)
  else if emailTaken db email then .error .uniqueViolation
  else
    let user : UserRow :=
      { id := db.nextUserId, email := email, password_hash := password_hash,
        user_type := user_type, first_name := first_name,
        last_name := last_name, is_active := true, created_at := now }
    let db1 : DB := { db with users := db.users ++ [user], nextUserId := db.nextUserId + 1 }
    if failAt 2 then .error (.transient 2)
    else
      let pr : Nat × DB :=
        if user_type == "client" then
          (db1.nextClientProfileId,
           { db1 with
              client_profiles :=
                db1.client_profiles ++ [{ id := db1.nextClientProfileId, user_id := user.id }],
              nextClientProfileId := db1.nextClientProfileId + 1 })
        else
          (db1.nextFreelancerProfileId,
           { db1 with
              freelancer_profiles :=
                db1.freelancer_profiles ++
                  [{ id := db1.nextFreelancerProfileId, user_id := user.id,
                     title := data.title.getD "Freelancer" }],
              nextFreelancerProfileId := db1.nextFreelancerProfileId + 1 })
      if failAt 3 then .error (.transient 3)
      else
        let db3 : DB :=
          { pr.2 with
              user_sessions :=
                pr.2.user_sessions ++
                  [{ user_id := user.id, session_token := token, expires_at := now + sessionTtl }] }
        if failAt 4 then .error (.transient 4)
        else
          .ok ({ statusCode := 201,
                 body := .registered "User registered successfully" token
                   { id := user.id, email := user.email, userType := user.user_type,
                     firstName := user.first_name, lastName := user.last_name,
                     profileId := some pr.1 } }, db3)

/-- `handle_register`, generalised to a check-then-act schedule: the
duplicate pre-check (`SELECT id FROM users WHERE email = %s`, statement 0)
reads `dbCheck`, while the inserts run against `dbInsert`.  A serial
execution has `dbCheck = dbInsert`; a concurrent Register committing
between the two phases makes them differ. -/
def handle_register_two (pbkdf2 : Pbkdf2) (salt token : String) (now : Nat)
    (failAt : Nat → Bool) (dbCheck dbInsert : DB) (data : RegisterData) :
    Except DBErr (Response × DB) :=
  match missingField data with
  | some f =>
    .ok ({ statusCode := 400, body := .error ("Missing required field: " ++ f) }, dbInsert)
  | none =>
    let email := pyStrip (pyLower (pyGet data.email))
    let password := pyGet data.password
    let user_type := pyGet data.userType
    if !(user_type == "client" || user_type == "freelancer") then
      .ok ({ statusCode := 400, body := .error "Invalid user type" }, dbInsert)
    else if password.length < 6 then
      .ok ({ statusCode := 400, body := .error "Password must be at least 6 characters" }, dbInsert)
    else if failAt 0 then .error (.transient 0)
    else if emailTaken dbCheck email then
      .ok ({ statusCode := 400, body := .error "User with this email already exists" }, dbInsert)
    else
      registerInsert pbkdf2 salt token now failAt dbInsert data email password user_type

/-- `handle_register` of the source: serial schedule of
`handle_register_two`. -/
def handle_register (pbkdf2 : Pbkdf2) (salt token : String) (now : Nat)
    (failAt : Nat → Bool) (db : DB) (data : RegisterData) :
    Except DBErr (Response × DB) :=
  handle_register_two pbkdf2 salt token now failAt db db data

/-- The `except psycopg2.Error` branch of `handler` (lines 78-83): a
storage failure is serialized as a 500 `Database error` response, and the
connection is closed without `conn.commit()`, rolling the transaction
back to the state the schedule started from. -/
def register_handler_two (pbkdf2 : Pbkdf2) (salt token : String) (now : Nat)
    (failAt : Nat → Bool) (dbCheck dbInsert : DB) (data : RegisterData) :
    Response × DB :=
  match handle_register_two pbkdf2 salt token now failAt dbCheck dbInsert data with
  | .ok r => r
  | .error e =>
    ({ statusCode := 500, body := .error ("Database error: " ++ errMsg e) }, dbInsert)

/-- Serial `handler`-wrapped Register. -/
def register_handler (pbkdf2 : Pbkdf2) (salt token : String) (now : Nat)
    (failAt : Nat → Bool) (db : DB) (data : RegisterData) : Response × DB :=
  register_handler_two pbkdf2 salt token now failAt db db data

/-- The fixed 401 `Invalid credentials` response of `handle_login`. -/
def invalidCredentialsResp : Response :=
  { statusCode := 401, body := .error "Invalid credentials" }

/-- `handle_login` of the source (storage statements assumed to succeed;
`token` and `now` stand for the generated session token and the clock). -/
def handle_login (pbkdf2 : Pbkdf2) (token : String) (now : Nat)
    (db : DB) (data : LoginData) : Response × DB :=
  let email := pyStrip (pyLower (pyGet data.email))
  let password := pyGet data.password
  if email == "" || password == "" then
    ({ statusCode := 400, body := .error "Email and password are required" }, db)
  else
    match db.users.find? (fun u => u.email == email) with
    | none => (invalidCredentialsResp, db)
    | some user =>
      if !user.is_active then (invalidCredentialsResp, db)
      else if !(verify_password pbkdf2 user.password_hash password) then
        (invalidCredentialsResp, db)
      else
        let profile_id : Option Nat :=
          if user.user_type == "client" then
            (db.client_profiles.find? (fun p => p.user_id == user.id)).map (fun p => p.id)
          else
            (db.freelancer_profiles.find? (fun p => p.user_id == user.id)).map (fun p => p.id)
        let db1 : DB :=
          { db with
              user_sessions :=
                db.user_sessions ++
                  [{ user_id := user.id, session_token := token, expires_at := now + sessionTtl }] }
        ({ statusCode := 200,
           body := .loggedIn "Login successful" token
             { id := user.id, email := user.email, userType := user.user_type,
               firstName := user.first_name, lastName := user.last_name,
               profileId := profile_id } }, db1)

/-- `headers.get('x-session-token') or headers.get('X-Session-Token')`. -/
def sessionTokenOf (h : Headers) : Option String :=
  pyOr h.xSessionTokenLower h.xSessionTokenUpper

/-- `handle_logout` of the source: `UPDATE user_sessions SET
expires_at = NOW() WHERE session_token = %s`, then commit. -/
def handle_logout (db : DB) (h : Headers) (now : Nat) : Response × DB :=
  match sessionTokenOf h with
  | none => ({ statusCode := 400, body := .error "Session token required" }, db)
  | some token =>
    if token == "" then
      ({ statusCode := 400, body := .error "Session token required" }, db)
    else
      let db1 : DB :=
        { db with
            user_sessions :=
              db.user_sessions.map (fun s =>
                if s.session_token == token then { s with expires_at := now } else s) }
      ({ statusCode := 200, body := .loggedOut "Logout successful" }, db1)

/-- The session query of `handle_session_check`: first session row with
the given token that is not expired and whose owning user row is active,
joined with that user row. -/
def findActiveSession (db : DB) (token : String) (now : Nat) :
    Option (SessionRow × UserRow) :=
  db.user_sessions.findSome? (fun s =>
    if s.session_token == token && decide (now < s.expires_at) then
      (db.users.find? (fun u => u.id == s.user_id && u.is_active)).map (fun u => (s, u))
    else none)

/-- The fixed 401 response for an unknown, expired, or disabled-account
session. -/
def invalidSessionResp : Response :=
  { statusCode := 401, body := .error "Invalid or expired session" }

/-- `handle_session_check` of the source (read-only: it returns no new
database state). -/
def handle_session_check (db : DB) (h : Headers) (now : Nat) : Response :=
  match sessionTokenOf h with
  | none => { statusCode := 401, body := .error "Session token required" }
  | some token =>
    if token == "" then { statusCode := 401, body := .error "Session token required" }
    else
      match findActiveSession db token now with
      | none => invalidSessionResp
      | some su =>
        let profile_id : Option Nat :=
          if su.2.user_type == "client" then
            (db.client_profiles.find? (fun p => p.user_id == su.1.user_id)).map (fun p => p.id)
          else
            (db.freelancer_profiles.find? (fun p => p.user_id == su.1.user_id)).map (fun p => p.id)
        { statusCode := 200,
          body := .sessionInfo true
            { id := su.1.user_id, email := su.2.email, userType := su.2.user_type,
              firstName := su.2.first_name, lastName := su.2.last_name,
              profileId := profile_id } }

/-- A concrete key-derivation function used to instantiate the abstract
PBKDF2 parameter on sample inputs. -/
def idKdf : Pbkdf2 := fun q _ => q

/-- Empty store. -/
def dbEmpty : DB :=
  { users := [], client_profiles := [], freelancer_profiles := [],
    user_sessions := [], nextUserId := 1, nextClientProfileId := 1,
    nextFreelancerProfileId := 1 }

/-- Sample valid Register request. -/
def regDataA : RegisterData :=
  { email := some "A@x.com ", password := some "secret1", userType := some "client",
    firstName := some "Ann", lastName := some "Lee", title := none }

/-- Sample Register request with no email field. -/
def regDataNoEmail : RegisterData :=
  { email := none, password := some "secret1", userType := some "client",
    firstName := some "Ann", lastName := some "Lee", title := none }

/-- Sample Register request whose first name is a single space. -/
def regDataWs : RegisterData :=
  { email := some "a@x.com", password := some "secret1", userType := some "client",
    firstName := some " ", lastName := some "Lee", title := none }

/-- Sample Login request. -/
def loginDataA : LoginData :=
  { email := some "a@x.com", password := some "secret1" }

/-- Sample account row. -/
def userFix : UserRow :=
  { id := 7, email := "a@x.com", password_hash := "s:h", user_type := "client",
    first_name := "Ann", last_name := "Lee", is_active := true, created_at := 0 }

/-- Sample session row owned by `userFix`. -/
def sessFix : SessionRow :=
  { user_id := 7, session_token := "tok1", expires_at := 100 }

/-- Store holding `userFix`, its client profile and `sessFix`. -/
def dbFix : DB :=
  { users := [userFix], client_profiles := [{ id := 3, user_id := 7 }],
    freelancer_profiles := [], user_sessions := [sessFix],
    nextUserId := 8, nextClientProfileId := 4, nextFreelancerProfileId := 1 }

/-- Headers carrying the token of `sessFix`. -/
def hdrFix : Headers :=
  { xSessionTokenLower := some "tok1", xSessionTokenUpper := none }

theorem splitColon_ne_nil (cs : List Char) : splitColon cs ≠ [] := by
  induction cs with
  | nil => simp [splitColon]
  | cons c rest ih =>
    simp only [splitColon]
    split
    · simp
    · match h : splitColon rest with
      | [] => exact absurd h ih
      | x :: xs => simp

theorem splitColon_of_not_mem (cs : List Char) (h : ':' ∉ cs) :
    splitColon cs = [cs] := by
  induction cs with
  | nil => rfl
  | cons c rest ih =>
    simp only [List.mem_cons, not_or] at h
    have hc : ¬ (c = ':') := fun hcc => h.1 (by simp [hcc])
    simp only [splitColon, ih h.2, if_neg hc]

theorem splitColon_append (a b : List Char) (ha : ':' ∉ a) :
    splitColon (a ++ ':' :: b) = a :: splitColon b := by
  induction a with
  | nil => simp [splitColon]
  | cons c rest ih =>
    simp only [List.mem_cons, not_or] at ha
    have hc : ¬ (c = ':') := fun hcc => ha.1 (by simp [hcc])
    have hr : splitColon (rest.append (':' :: b)) = rest :: splitColon b := ih ha.2
    simp only [List.cons_append, splitColon, if_neg hc, hr]

theorem string_mk_data (s : String) : String.mk s.data = s := rfl

theorem verify_password_hash_eq (pbkdf2 : Pbkdf2) (salt p q : String)
    (hs : ':' ∉ salt.data) (hh : ':' ∉ (pbkdf2 p salt).data) :
    verify_password pbkdf2 (hash_password pbkdf2 salt p) q =
      (pbkdf2 q salt == pbkdf2 p salt) := by
  have hdata : (hash_password pbkdf2 salt p).data
      = salt.data ++ ':' :: (pbkdf2 p salt).data := by
    simp [hash_password, String.data_append]
  unfold verify_password
  rw [hdata, splitColon_append _ _ hs, splitColon_of_not_mem _ hh]

/-- Claim C2: for every password `p`, `verify_password (hash_password p) p`
is `true`, and for `p' ≠ p` it is `false` — stated for any salt without a
colon (as produced by `secrets.token_hex`) and any colon-free,
collision-free instantiation of the PBKDF2 primitive at that salt. -/
theorem hash_verify_roundtrip (pbkdf2 : Pbkdf2) (salt p p' : String)
    (hs : ':' ∉ salt.data) (hh : ':' ∉ (pbkdf2 p salt).data)
    (hinj : ∀ q q', pbkdf2 q salt = pbkdf2 q' salt → q = q') :
    verify_password pbkdf2 (hash_password pbkdf2 salt p) p = true ∧
    (p' ≠ p → verify_password pbkdf2 (hash_password pbkdf2 salt p) p' = false) := by
  constructor
  · rw [verify_password_hash_eq pbkdf2 salt p p hs hh]
    simp
  · intro hne
    rw [verify_password_hash_eq pbkdf2 salt p p' hs hh, beq_eq_false_iff_ne]
    exact fun hEq => hne (hinj p' p hEq)

/-- Witness for C2 at a concrete salt, password and kdf. -/
theorem hash_verify_roundtrip_witness :
    (':' ∉ ("ab" : String).data) ∧ (':' ∉ (idKdf "secret" "ab").data) ∧
    (verify_password idKdf (hash_password idKdf "ab" "secret") "secret" = true ∧
      ("other" ≠ "secret" →
        verify_password idKdf (hash_password idKdf "ab" "secret") "other" = false)) := by
  refine ⟨by decide, by decide, ?_⟩
  exact hash_verify_roundtrip idKdf "ab" "secret" "other" (by decide) (by decide)
    (fun q q' hq => hq)

/-- Claim C9: `verify_password` is total and returns `false` whenever the
stored hash does not split at colons into exactly two parts (no colon, or
more than one colon). -/
theorem verify_password_total_malformed (pbkdf2 : Pbkdf2) (stored p : String)
    (h : (splitColon stored.data).length ≠ 2) :
    verify_password pbkdf2 stored p = false := by
  rcases hs : splitColon stored.data with _ | ⟨a, _ | ⟨b, _ | ⟨c, t3⟩⟩⟩
  · simp [verify_password, hs]
  · simp [verify_password, hs]
  · exact absurd (by simp [hs]) h
  · simp [verify_password, hs]

/-- Witness for C9 on a colon-free and a two-colon stored hash. -/
theorem verify_password_total_malformed_witness :
    ((splitColon ("abc" : String).data).length ≠ 2 ∧
      verify_password idKdf "abc" "pw" = false) ∧
    ((splitColon ("a:b:c" : String).data).length ≠ 2 ∧
      verify_password idKdf "a:b:c" "pw" = false) :=
  ⟨⟨by decide, verify_password_total_malformed idKdf "abc" "pw" (by decide)⟩,
   ⟨by decide, verify_password_total_malformed idKdf "a:b:c" "pw" (by decide)⟩⟩

theorem emailTaken_iff (db : DB) (e : String) :
    emailTaken db e = true ↔ ∃ u ∈ db.users, u.email = e := by
  simp [emailTaken, List.any_eq_true]

theorem handle_register_two_missing (pbkdf2 : Pbkdf2) (salt token : String)
    (now : Nat) (failAt : Nat → Bool) (dbCheck dbInsert : DB)
    (data : RegisterData) (f : String) (hm : missingField data = some f) :
    handle_register_two pbkdf2 salt token now failAt dbCheck dbInsert data =
      .ok ({ statusCode := 400, body := .error ("Missing required field: " ++ f) }, dbInsert) := by
  simp [handle_register_two, hm]

theorem handle_register_two_invalid_type (pbkdf2 : Pbkdf2) (salt token : String)
    (now : Nat) (failAt : Nat → Bool) (dbCheck dbInsert : DB) (data : RegisterData)
    (hm : missingField data = none)
    (hty : (pyGet data.userType == "client" || pyGet data.userType == "freelancer") = false) :
    handle_register_two pbkdf2 salt token now failAt dbCheck dbInsert data =
      .ok ({ statusCode := 400, body := .error "Invalid user type" }, dbInsert) := by
  simp [handle_register_two, hm, hty]

theorem handle_register_two_weak_password (pbkdf2 : Pbkdf2) (salt token : String)
    (now : Nat) (failAt : Nat → Bool) (dbCheck dbInsert : DB) (data : RegisterData)
    (hm : missingField data = none)
    (hty : (pyGet data.userType == "client" || pyGet data.userType == "freelancer") = true)
    (hpw : (pyGet data.password).length < 6) :
    handle_register_two pbkdf2 salt token now failAt dbCheck dbInsert data =
      .ok ({ statusCode := 400, body := .error "Password must be at least 6 characters" }, dbInsert) := by
  simp [handle_register_two, hm, hty, hpw]

theorem handle_register_two_duplicate (pbkdf2 : Pbkdf2) (salt token : String)
    (now : Nat) (failAt : Nat → Bool) (dbCheck dbInsert : DB) (data : RegisterData)
    (hm : missingField data = none)
    (hty : (pyGet data.userType == "client" || pyGet data.userType == "freelancer") = true)
    (hpw : ¬ (pyGet data.password).length < 6) (hf0 : failAt 0 = false)
    (hdup : emailTaken dbCheck (normEmail data) = true) :
    handle_register_two pbkdf2 salt token now failAt dbCheck dbInsert data =
      .ok ({ statusCode := 400, body := .error "User with this email already exists" }, dbInsert) := by
  simp [handle_register_two, hm, hty, hpw, hf0, normEmail] at hdup ⊢
  simp [hdup]

theorem handle_register_two_proceed (pbkdf2 : Pbkdf2) (salt token : String)
    (now : Nat) (failAt : Nat → Bool) (dbCheck dbInsert : DB) (data : RegisterData)
    (hm : missingField data = none)
    (hty : (pyGet data.userType == "client" || pyGet data.userType == "freelancer") = true)
    (hpw : ¬ (pyGet data.password).length < 6) (hf0 : failAt 0 = false)
    (hfree : emailTaken dbCheck (normEmail data) = false) :
    handle_register_two pbkdf2 salt token now failAt dbCheck dbInsert data =
      registerInsert pbkdf2 salt token now failAt dbInsert data (normEmail data)
        (pyGet data.password) (pyGet data.userType) := by
  simp [normEmail] at hfree
  simp [handle_register_two, hm, hty, hpw, hf0, hfree, normEmail]

theorem registerInsert_client_eq (pbkdf2 : Pbkdf2) (salt token : String) (now : Nat)
    (failAt : Nat → Bool) (db : DB) (data : RegisterData)
    (email password user_type : String)
    (hf1 : failAt 1 = false) (hf2 : failAt 2 = false) (hf3 : failAt 3 = false)
    (hf4 : failAt 4 = false)
    (hfree : emailTaken db email = false) (hct : (user_type == "client") = true) :
    registerInsert pbkdf2 salt token now failAt db data email password user_type =
      .ok ({ statusCode := 201,
             body := .registered "User registered successfully" token
               { id := db.nextUserId, email := email, userType := user_type,
                 firstName := pyStrip (pyGet data.firstName),
                 lastName := pyStrip (pyGet data.lastName),
                 profileId := some db.nextClientProfileId } },
           { users := db.users ++
               [{ id := db.nextUserId, email := email,
                  password_hash := hash_password pbkdf2 salt password,
                  user_type := user_type,
                  first_name := pyStrip (pyGet data.firstName),
                  last_name := pyStrip (pyGet data.lastName),
                  is_active := true, created_at := now }],
             client_profiles := db.client_profiles ++
               [{ id := db.nextClientProfileId, user_id := db.nextUserId }],
             freelancer_profiles := db.freelancer_profiles,
             user_sessions := db.user_sessions ++
               [{ user_id := db.nextUserId, session_token := token,
                  expires_at := now + sessionTtl }],
             nextUserId := db.nextUserId + 1,
             nextClientProfileId := db.nextClientProfileId + 1,
             nextFreelancerProfileId := db.nextFreelancerProfileId }) := by
  simp [registerInsert, hf1, hf2, hf3, hf4, hfree, hct]

theorem registerInsert_freelancer_eq (pbkdf2 : Pbkdf2) (salt token : String) (now : Nat)
    (failAt : Nat → Bool) (db : DB) (data : RegisterData)
    (email password user_type : String)
    (hf1 : failAt 1 = false) (hf2 : failAt 2 = false) (hf3 : failAt 3 = false)
    (hf4 : failAt 4 = false)
    (hfree : emailTaken db email = false) (hct : (user_type == "client") = false) :
    registerInsert pbkdf2 salt token now failAt db data email password user_type =
      .ok ({ statusCode := 201,
             body := .registered "User registered successfully" token
               { id := db.nextUserId, email := email, userType := user_type,
                 firstName := pyStrip (pyGet data.firstName),
                 lastName := pyStrip (pyGet data.lastName),
                 profileId := some db.nextFreelancerProfileId } },
           { users := db.users ++
               [{ id := db.nextUserId, email := email,
                  password_hash := hash_password pbkdf2 salt password,
                  user_type := user_type,
                  first_name := pyStrip (pyGet data.firstName),
                  last_name := pyStrip (pyGet data.lastName),
                  is_active := true, created_at := now }],
             client_profiles := db.client_profiles,
             freelancer_profiles := db.freelancer_profiles ++
               [{ id := db.nextFreelancerProfileId, user_id := db.nextUserId,
                  title := data.title.getD "Freelancer" }],
             user_sessions := db.user_sessions ++
               [{ user_id := db.nextUserId, session_token := token,
                  expires_at := now + sessionTtl }],
             nextUserId := db.nextUserId + 1,
             nextClientProfileId := db.nextClientProfileId,
             nextFreelancerProfileId := db.nextFreelancerProfileId + 1 }) := by
  simp [registerInsert, hf1, hf2, hf3, hf4, hfree, hct]

theorem registerInsert_fail1 (pbkdf2 : Pbkdf2) (salt token : String) (now : Nat)
    (failAt : Nat → Bool) (db : DB) (data : RegisterData)
    (email password user_type : String) (hf1 : failAt 1 = true) :
    registerInsert pbkdf2 salt token now failAt db data email password user_type =
      .error (.transient 1) := by
  simp [registerInsert, hf1]

theorem registerInsert_unique_violation (pbkdf2 : Pbkdf2) (salt token : String)
    (now : Nat) (failAt : Nat → Bool) (db : DB) (data : RegisterData)
    (email password user_type : String) (hf1 : failAt 1 = false)
    (hdup : emailTaken db email = true) :
    registerInsert pbkdf2 salt token now failAt db data email password user_type =
      .error .uniqueViolation := by
  simp [registerInsert, hf1, hdup]

theorem registerInsert_fail2 (pbkdf2 : Pbkdf2) (salt token : String) (now : Nat)
    (failAt : Nat → Bool) (db : DB) (data : RegisterData)
    (email password user_type : String) (hf1 : failAt 1 = false)
    (hfree : emailTaken db email = false) (hf2 : failAt 2 = true) :
    registerInsert pbkdf2 salt token now failAt db data email password user_type =
      .error (.transient 2) := by
  simp [registerInsert, hf1, hfree, hf2]

theorem registerInsert_fail3 (pbkdf2 : Pbkdf2) (salt token : String) (now : Nat)
    (failAt : Nat → Bool) (db : DB) (data : RegisterData)
    (email password user_type : String) (hf1 : failAt 1 = false)
    (hfree : emailTaken db email = false) (hf2 : failAt 2 = false)
    (hf3 : failAt 3 = true) :
    registerInsert pbkdf2 salt token now failAt db data email password user_type =
      .error (.transient 3) := by
  simp [registerInsert, hf1, hfree, hf2, hf3]

theorem registerInsert_fail4 (pbkdf2 : Pbkdf2) (salt token : String) (now : Nat)
    (failAt : Nat → Bool) (db : DB) (data : RegisterData)
    (email password user_type : String) (hf1 : failAt 1 = false)
    (hfree : emailTaken db email = false) (hf2 : failAt 2 = false)
    (hf3 : failAt 3 = false) (hf4 : failAt 4 = true) :
    registerInsert pbkdf2 salt token now failAt db data email password user_type =
      .error (.transient 4) := by
  simp [registerInsert, hf1, hfree, hf2, hf3, hf4]

theorem register_handler_two_of_ok (pbkdf2 : Pbkdf2) (salt token : String)
    (now : Nat) (failAt : Nat → Bool) (dbCheck dbInsert : DB) (data : RegisterData)
    (r : Response × DB)
    (hok : handle_register_two pbkdf2 salt token now failAt dbCheck dbInsert data = .ok r) :
    register_handler_two pbkdf2 salt token now failAt dbCheck dbInsert data = r := by
  simp [register_handler_two, hok]

theorem register_handler_two_of_error (pbkdf2 : Pbkdf2) (salt token : String)
    (now : Nat) (failAt : Nat → Bool) (dbCheck dbInsert : DB) (data : RegisterData)
    (e : DBErr)
    (he : handle_register_two pbkdf2 salt token now failAt dbCheck dbInsert data = .error e) :
    register_handler_two pbkdf2 salt token now failAt dbCheck dbInsert data =
      ({ statusCode := 500, body := .error ("Database error: " ++ errMsg e) }, dbInsert) := by
  simp [register_handler_two, he]

/-- Claim C8: Register rejects, before any write, first a request with a
missing or empty required field (naming the first such field in the order
email, password, userType, firstName, lastName), then an invalid user
type, then a password of fewer than 6 characters. -/
theorem register_validation_order (pbkdf2 : Pbkdf2) (salt token : String)
    (now : Nat) (failAt : Nat → Bool) (db : DB) (data : RegisterData) :
    (∀ f, missingField data = some f →
      register_handler pbkdf2 salt token now failAt db data =
        ({ statusCode := 400, body := .error ("Missing required field: " ++ f) }, db)) ∧
    (missingField data = none →
      ((pyGet data.userType == "client" || pyGet data.userType == "freelancer") = false →
        register_handler pbkdf2 salt token now failAt db data =
          ({ statusCode := 400, body := .error "Invalid user type" }, db)) ∧
      ((pyGet data.userType == "client" || pyGet data.userType == "freelancer") = true →
        (pyGet data.password).length < 6 →
        register_handler pbkdf2 salt token now failAt db data =
          ({ statusCode := 400, body := .error "Password must be at least 6 characters" }, db))) := by
  refine ⟨fun f hm => ?_, fun hm => ⟨fun hty => ?_, fun hty hpw => ?_⟩⟩
  · exact register_handler_two_of_ok pbkdf2 salt token now failAt db db data _
      (handle_register_two_missing pbkdf2 salt token now failAt db db data f hm)
  · exact register_handler_two_of_ok pbkdf2 salt token now failAt db db data _
      (handle_register_two_invalid_type pbkdf2 salt token now failAt db db data hm hty)
  · exact register_handler_two_of_ok pbkdf2 salt token now failAt db db data _
      (handle_register_two_weak_password pbkdf2 salt token now failAt db db data hm hty hpw)

/-- Witness for C8: a request with no email field is rejected with
`Missing required field: email` and the store is unchanged. -/
theorem register_validation_order_witness :
    register_handler idKdf "aa" "tok" 0 noFail dbEmpty regDataNoEmail =
      ({ statusCode := 400, body := .error ("Missing required field: " ++ "email") }, dbEmpty) :=
  (register_validation_order idKdf "aa" "tok" 0 noFail dbEmpty regDataNoEmail).1
    "email" (by decide)

/-- Claim C6: when the store already holds an account with the request's
normalized email, a validated Register returns the `EmailExists` error and
writes nothing. -/
theorem register_email_exists_no_write (pbkdf2 : Pbkdf2) (salt token : String)
    (now : Nat) (db : DB) (data : RegisterData)
    (hm : missingField data = none)
    (hty : (pyGet data.userType == "client" || pyGet data.userType == "freelancer") = true)
    (hpw : ¬ (pyGet data.password).length < 6)
    (hdup : ∃ u ∈ db.users, u.email = normEmail data) :
    register_handler pbkdf2 salt token now noFail db data =
      ({ statusCode := 400, body := .error "User with this email already exists" }, db) :=
  register_handler_two_of_ok pbkdf2 salt token now noFail db db data _
    (handle_register_two_duplicate pbkdf2 salt token now noFail db db data hm hty hpw rfl
      ((emailTaken_iff db _).2 hdup))

/-- Witness for C6: registering `A@x.com ` against a store already
holding `a@x.com`. -/
theorem register_email_exists_no_write_witness :
    register_handler idKdf "aa" "tok" 5 noFail dbFix regDataA =
      ({ statusCode := 400, body := .error "User with this email already exists" }, dbFix) :=
  register_email_exists_no_write idKdf "aa" "tok" 5 dbFix regDataA
    (by decide) (by decide) (by decide) ⟨userFix, by decide, by decide⟩

/-- Claim C10: presence validation tests the raw field value, so a
whitespace-only firstName passes it, and the account is persisted with
`first_name` equal to the empty string (the value after `strip()`). -/
theorem register_whitespace_name_empty (pbkdf2 : Pbkdf2) (salt token : String)
    (now : Nat) (db : DB) (data : RegisterData) (fn : String)
    (hfn : data.firstName = some fn) (hws : pyStrip fn = "")
    (hm : missingField data = none)
    (hty : (pyGet data.userType == "client" || pyGet data.userType == "freelancer") = true)
    (hpw : ¬ (pyGet data.password).length < 6)
    (hfree : emailTaken db (normEmail data) = false) :
    (register_handler pbkdf2 salt token now noFail db data).1.statusCode = 201 ∧
    ∃ u ∈ (register_handler pbkdf2 salt token now noFail db data).2.users,
      u.id = db.nextUserId ∧ u.first_name = "" := by
  have hstep := handle_register_two_proceed pbkdf2 salt token now noFail db db data
    hm hty hpw rfl hfree
  have hfname : pyStrip (pyGet data.firstName) = "" := by rw [hfn]; exact hws
  cases hct : (pyGet data.userType == "client") with
  | true =>
    have heq := registerInsert_client_eq pbkdf2 salt token now noFail db data
      (normEmail data) (pyGet data.password) (pyGet data.userType) rfl rfl rfl rfl hfree hct
    have hall : register_handler pbkdf2 salt token now noFail db data =
        _ := register_handler_two_of_ok pbkdf2 salt token now noFail db db data _
        (hstep.trans heq)
    rw [hall]
    exact ⟨rfl, _, List.mem_append_right _ (List.mem_singleton_self _), rfl, hfname⟩
  | false =>
    have heq := registerInsert_freelancer_eq pbkdf2 salt token now noFail db data
      (normEmail data) (pyGet data.password) (pyGet data.userType) rfl rfl rfl rfl hfree hct
    have hall : register_handler pbkdf2 salt token now noFail db data =
        _ := register_handler_two_of_ok pbkdf2 salt token now noFail db db data _
        (hstep.trans heq)
    rw [hall]
    exact ⟨rfl, _, List.mem_append_right _ (List.mem_singleton_self _), rfl, hfname⟩

/-- Witness for C10: a Register whose firstName is a single space
succeeds and stores an empty first name. -/
theorem register_whitespace_name_empty_witness :
    (register_handler idKdf "aa" "tok" 0 noFail dbEmpty regDataWs).1.statusCode = 201 ∧
    ∃ u ∈ (register_handler idKdf "aa" "tok" 0 noFail dbEmpty regDataWs).2.users,
      u.id = dbEmpty.nextUserId ∧ u.first_name = "" :=
  register_whitespace_name_empty idKdf "aa" "tok" 0 dbEmpty regDataWs " "
    (by decide) (by decide) (by decide) (by decide) (by decide) (by decide)

theorem register_handler_eq (pbkdf2 : Pbkdf2) (salt token : String) (now : Nat)
    (failAt : Nat → Bool) (db : DB) (data : RegisterData) :
    register_handler pbkdf2 salt token now failAt db data =
      register_handler_two pbkdf2 salt token now failAt db db data := rfl

theorem handle_register_eq (pbkdf2 : Pbkdf2) (salt token : String) (now : Nat)
    (failAt : Nat → Bool) (db : DB) (data : RegisterData) :
    handle_register pbkdf2 salt token now failAt db data =
      handle_register_two pbkdf2 salt token now failAt db db data := rfl

/-- Claim C1: Register's writes are atomic.  For every input and every
pattern of storage failures, either the request succeeds with status 201
and the committed store holds the new account together with its profile
row and its session row, or the committed store is exactly the initial
one and the caller saw a validation/duplicate error (status 400) or the
single 500 `Database error` response produced by the raised storage
error. -/
theorem register_atomic (pbkdf2 : Pbkdf2) (salt token : String) (now : Nat)
    (failAt : Nat → Bool) (db : DB) (data : RegisterData) :
    ((register_handler pbkdf2 salt token now failAt db data).1.statusCode = 201 ∧
      ∃ u ∈ (register_handler pbkdf2 salt token now failAt db data).2.users,
        ((∃ cp ∈ (register_handler pbkdf2 salt token now failAt db data).2.client_profiles,
            cp.user_id = u.id) ∨
          (∃ fp ∈ (register_handler pbkdf2 salt token now failAt db data).2.freelancer_profiles,
            fp.user_id = u.id)) ∧
        ∃ s ∈ (register_handler pbkdf2 salt token now failAt db data).2.user_sessions,
          s.user_id = u.id ∧ s.session_token = token) ∨
    ((register_handler pbkdf2 salt token now failAt db data).2 = db ∧
      ((register_handler pbkdf2 salt token now failAt db data).1.statusCode = 400 ∨
        ∃ e, handle_register pbkdf2 salt token now failAt db data = .error e ∧
          (register_handler pbkdf2 salt token now failAt db data).1 =
            { statusCode := 500, body := .error ("Database error: " ++ errMsg e) })) := by
  rw [register_handler_eq, handle_register_eq]
  cases hm : missingField data with
  | some f =>
    rw [register_handler_two_of_ok _ _ _ _ _ _ _ _ _
      (handle_register_two_missing pbkdf2 salt token now failAt db db data f hm)]
    exact Or.inr ⟨rfl, Or.inl rfl⟩
  | none =>
    cases hty : (pyGet data.userType == "client" || pyGet data.userType == "freelancer") with
    | false =>
      rw [register_handler_two_of_ok _ _ _ _ _ _ _ _ _
        (handle_register_two_invalid_type pbkdf2 salt token now failAt db db data hm hty)]
      exact Or.inr ⟨rfl, Or.inl rfl⟩
    | true =>
      by_cases hpw : (pyGet data.password).length < 6
      · rw [register_handler_two_of_ok _ _ _ _ _ _ _ _ _
          (handle_register_two_weak_password pbkdf2 salt token now failAt db db data hm hty hpw)]
        exact Or.inr ⟨rfl, Or.inl rfl⟩
      · cases hf0 : failAt 0 with
        | true =>
          have herr : handle_register_two pbkdf2 salt token now failAt db db data =
              .error (.transient 0) := by
            simp [handle_register_two, hm, hty, hpw, hf0]
          rw [register_handler_two_of_error _ _ _ _ _ _ _ _ _ herr]
          exact Or.inr ⟨rfl, Or.inr ⟨.transient 0, herr, rfl⟩⟩
        | false =>
          cases hdup : emailTaken db (normEmail data) with
          | true =>
            rw [register_handler_two_of_ok _ _ _ _ _ _ _ _ _
              (handle_register_two_duplicate pbkdf2 salt token now failAt db db data
                hm hty hpw hf0 hdup)]
            exact Or.inr ⟨rfl, Or.inl rfl⟩
          | false =>
            have hstep := handle_register_two_proceed pbkdf2 salt token now failAt db db data
              hm hty hpw hf0 hdup
            cases hf1 : failAt 1 with
            | true =>
              have herr := hstep.trans
                (registerInsert_fail1 pbkdf2 salt token now failAt db data _ _ _ hf1)
              rw [register_handler_two_of_error _ _ _ _ _ _ _ _ _ herr]
              exact Or.inr ⟨rfl, Or.inr ⟨.transient 1, herr, rfl⟩⟩
            | false =>
              cases hf2 : failAt 2 with
              | true =>
                have herr := hstep.trans
                  (registerInsert_fail2 pbkdf2 salt token now failAt db data _ _ _ hf1 hdup hf2)
                rw [register_handler_two_of_error _ _ _ _ _ _ _ _ _ herr]
                exact Or.inr ⟨rfl, Or.inr ⟨.transient 2, herr, rfl⟩⟩
              | false =>
                cases hf3 : failAt 3 with
                | true =>
                  have herr := hstep.trans
                    (registerInsert_fail3 pbkdf2 salt token now failAt db data _ _ _
                      hf1 hdup hf2 hf3)
                  rw [register_handler_two_of_error _ _ _ _ _ _ _ _ _ herr]
                  exact Or.inr ⟨rfl, Or.inr ⟨.transient 3, herr, rfl⟩⟩
                | false =>
                  cases hf4 : failAt 4 with
                  | true =>
                    have herr := hstep.trans
                      (registerInsert_fail4 pbkdf2 salt token now failAt db data _ _ _
                        hf1 hdup hf2 hf3 hf4)
                    rw [register_handler_two_of_error _ _ _ _ _ _ _ _ _ herr]
                    exact Or.inr ⟨rfl, Or.inr ⟨.transient 4, herr, rfl⟩⟩
                  | false =>
                    cases hct : (pyGet data.userType == "client") with
                    | true =>
                      have hok := hstep.trans
                        (registerInsert_client_eq pbkdf2 salt token now failAt db data
                          _ _ _ hf1 hf2 hf3 hf4 hdup hct)
                      rw [register_handler_two_of_ok _ _ _ _ _ _ _ _ _ hok]
                      refine Or.inl ⟨rfl, ⟨_,
                        List.mem_append_right _ (List.mem_singleton_self _),
                        Or.inl ⟨_, List.mem_append_right _ (List.mem_singleton_self _), rfl⟩,
                        ⟨_, List.mem_append_right _ (List.mem_singleton_self _), rfl, rfl⟩⟩⟩
                    | false =>
                      have hok := hstep.trans
                        (registerInsert_freelancer_eq pbkdf2 salt token now failAt db data
                          _ _ _ hf1 hf2 hf3 hf4 hdup hct)
                      rw [register_handler_two_of_ok _ _ _ _ _ _ _ _ _ hok]
                      refine Or.inl ⟨rfl, ⟨_,
                        List.mem_append_right _ (List.mem_singleton_self _),
                        Or.inr ⟨_, List.mem_append_right _ (List.mem_singleton_self _), rfl⟩,
                        ⟨_, List.mem_append_right _ (List.mem_singleton_self _), rfl, rfl⟩⟩⟩

/-- Counterexample to C7: in the check-then-act race (both duplicate
pre-checks read the store before either insert commits), the loser's
response is the 500 `Database error` wrapping of the uniqueness
violation, not the 400 `EmailExists` error the claim states. -/
theorem register_race_counterexample :
    (register_handler idKdf "aa" "tokA" 0 noFail dbEmpty regDataA).1.statusCode = 201 ∧
    (register_handler_two idKdf "bb" "tokB" 0 noFail dbEmpty
        (register_handler idKdf "aa" "tokA" 0 noFail dbEmpty regDataA).2 regDataA).1 =
      { statusCode := 500,
        body := .error ("Database error: " ++ errMsg DBErr.uniqueViolation) } ∧
    (register_handler_two idKdf "bb" "tokB" 0 noFail dbEmpty
        (register_handler idKdf "aa" "tokA" 0 noFail dbEmpty regDataA).2 regDataA).1 ≠
      { statusCode := 400, body := .error "User with this email already exists" } := by
  decide

theorem register_race_second_500 (pbkdf2 : Pbkdf2) (saltB tokenB : String)
    (now : Nat) (dbCheck dbInsert : DB) (data : RegisterData)
    (hm : missingField data = none)
    (hty : (pyGet data.userType == "client" || pyGet data.userType == "freelancer") = true)
    (hpw : ¬ (pyGet data.password).length < 6)
    (hfree : emailTaken dbCheck (normEmail data) = false)
    (hdup : emailTaken dbInsert (normEmail data) = true) :
    register_handler_two pbkdf2 saltB tokenB now noFail dbCheck dbInsert data =
      ({ statusCode := 500,
         body := .error ("Database error: " ++ errMsg DBErr.uniqueViolation) }, dbInsert) := by
  have hstepB := handle_register_two_proceed pbkdf2 saltB tokenB now noFail
    dbCheck dbInsert data hm hty hpw rfl hfree
  have herrB := hstepB.trans
    (registerInsert_unique_violation pbkdf2 saltB tokenB now noFail dbInsert data
      _ _ _ rfl hdup)
  exact register_handler_two_of_error _ _ _ _ _ _ _ _ _ herrB

/-- Claim C7 (amended): of two concurrent Registers with the same email
whose pre-checks both pass, exactly one succeeds; the other's insert hits
the storage uniqueness constraint and the caller observes the generic 500
`StorageError` response — the violation is not translated to
`EmailExists` — while the store keeps only the winner's committed
state. -/
theorem register_race_storage_error (pbkdf2 : Pbkdf2)
    (saltA tokenA saltB tokenB : String) (now : Nat) (db : DB) (data : RegisterData)
    (hm : missingField data = none)
    (hty : (pyGet data.userType == "client" || pyGet data.userType == "freelancer") = true)
    (hpw : ¬ (pyGet data.password).length < 6)
    (hfree : emailTaken db (normEmail data) = false) :
    (register_handler pbkdf2 saltA tokenA now noFail db data).1.statusCode = 201 ∧
    register_handler_two pbkdf2 saltB tokenB now noFail db
        (register_handler pbkdf2 saltA tokenA now noFail db data).2 data =
      ({ statusCode := 500,
         body := .error ("Database error: " ++ errMsg DBErr.uniqueViolation) },
       (register_handler pbkdf2 saltA tokenA now noFail db data).2) := by
  rw [register_handler_eq]
  have hstepA := handle_register_two_proceed pbkdf2 saltA tokenA now noFail db db data
    hm hty hpw rfl hfree
  cases hct : (pyGet data.userType == "client") with
  | true =>
    have hokA := hstepA.trans
      (registerInsert_client_eq pbkdf2 saltA tokenA now noFail db data
        _ _ _ rfl rfl rfl rfl hfree hct)
    have hdup3 : emailTaken
        (register_handler_two pbkdf2 saltA tokenA now noFail db db data).2
          (normEmail data) = true := by
      rw [register_handler_two_of_ok _ _ _ _ _ _ _ _ _ hokA]
      simp [emailTaken]
    refine ⟨?_, register_race_second_500 pbkdf2 saltB tokenB now db _ data
      hm hty hpw hfree hdup3⟩
    rw [register_handler_two_of_ok _ _ _ _ _ _ _ _ _ hokA]
  | false =>
    have hokA := hstepA.trans
      (registerInsert_freelancer_eq pbkdf2 saltA tokenA now noFail db data
        _ _ _ rfl rfl rfl rfl hfree hct)
    have hdup3 : emailTaken
        (register_handler_two pbkdf2 saltA tokenA now noFail db db data).2
          (normEmail data) = true := by
      rw [register_handler_two_of_ok _ _ _ _ _ _ _ _ _ hokA]
      simp [emailTaken]
    refine ⟨?_, register_race_second_500 pbkdf2 saltB tokenB now db _ data
      hm hty hpw hfree hdup3⟩
    rw [register_handler_two_of_ok _ _ _ _ _ _ _ _ _ hokA]

/-- Witness for the amended C7 at concrete inputs. -/
theorem register_race_storage_error_witness :
    (register_handler idKdf "aa" "tokA" 0 noFail dbEmpty regDataA).1.statusCode = 201 ∧
    register_handler_two idKdf "bb" "tokB" 0 noFail dbEmpty
        (register_handler idKdf "aa" "tokA" 0 noFail dbEmpty regDataA).2 regDataA =
      ({ statusCode := 500,
         body := .error ("Database error: " ++ errMsg DBErr.uniqueViolation) },
       (register_handler idKdf "aa" "tokA" 0 noFail dbEmpty regDataA).2) :=
  register_race_storage_error idKdf "aa" "tokA" "bb" "tokB" 0 dbEmpty regDataA
    (by decide) (by decide) (by decide) (by decide)

/-- Claim C4: Login produces the identical 401 `Invalid credentials`
response (same status, same payload, same unchanged store) whether the
email matches no account, the matching account is inactive, or the
password fails verification. -/
theorem login_invalid_credentials_uniform (pbkdf2 : Pbkdf2) (token : String)
    (now : Nat) (db : DB) (data : LoginData)
    (he : (pyStrip (pyLower (pyGet data.email)) == "") = false)
    (hp : (pyGet data.password == "") = false) :
    (db.users.find? (fun u => u.email == pyStrip (pyLower (pyGet data.email))) = none →
      handle_login pbkdf2 token now db data = (invalidCredentialsResp, db)) ∧
    (∀ u, db.users.find? (fun v => v.email == pyStrip (pyLower (pyGet data.email))) = some u →
      u.is_active = false →
      handle_login pbkdf2 token now db data = (invalidCredentialsResp, db)) ∧
    (∀ u, db.users.find? (fun v => v.email == pyStrip (pyLower (pyGet data.email))) = some u →
      u.is_active = true →
      verify_password pbkdf2 u.password_hash (pyGet data.password) = false →
      handle_login pbkdf2 token now db data = (invalidCredentialsResp, db)) := by
  refine ⟨fun hf => ?_, fun u hf hia => ?_, fun u hf hia hv => ?_⟩
  · simp [handle_login, he, hp, hf]
  · simp [handle_login, he, hp, hf, hia]
  · simp [handle_login, he, hp, hf, hia, hv]

/-- Witness for C4: login with an unknown email yields the
`Invalid credentials` response. -/
theorem login_invalid_credentials_uniform_witness :
    handle_login idKdf "tok" 0 dbFix
        { email := some "b@x.com", password := some "pw" } =
      (invalidCredentialsResp, dbFix) :=
  (login_invalid_credentials_uniform idKdf "tok" 0 dbFix
      { email := some "b@x.com", password := some "pw" }
      (by decide) (by decide)).1 (by decide)

theorem sessionPred_iff (users : List UserRow) (token : String) (now : Nat)
    (s : SessionRow) :
    ((if s.session_token == token && decide (now < s.expires_at) then
        (users.find? (fun u => u.id == s.user_id && u.is_active)).map (fun u => (s, u))
      else none) ≠ none) ↔
      (s.session_token = token ∧ now < s.expires_at ∧
        ∃ u ∈ users, u.id = s.user_id ∧ u.is_active = true) := by
  cases hc : (s.session_token == token && decide (now < s.expires_at)) with
  | false =>
    constructor
    · intro hx
      simp [hc] at hx
    · rintro ⟨h1, h2, -⟩
      exfalso
      have : (s.session_token == token && decide (now < s.expires_at)) = true := by
        simp [h1, h2]
      rw [hc] at this
      exact Bool.false_ne_true this
  | true =>
    obtain ⟨h1, h2⟩ : s.session_token = token ∧ now < s.expires_at := by
      simpa [Bool.and_eq_true] using hc
    simp only [hc, if_true]
    simp only [ne_eq, Option.map_eq_none', List.find?_eq_none, Bool.and_eq_true,
      beq_iff_eq, not_forall]
    constructor
    · rintro ⟨u, hu, hpu⟩
      have hpu2 : u.id = s.user_id ∧ u.is_active = true := by
        have := Classical.not_not.mp hpu
        exact ⟨this.1, this.2⟩
      exact ⟨h1, h2, u, hu, hpu2⟩
    · rintro ⟨-, -, u, hu, h3, h4⟩
      exact ⟨u, hu, by simp [h3, h4]⟩

theorem findActiveSession_isSome_iff (db : DB) (token : String) (now : Nat) :
    (findActiveSession db token now).isSome = true ↔
      ∃ s ∈ db.user_sessions, s.session_token = token ∧ now < s.expires_at ∧
        ∃ u ∈ db.users, u.id = s.user_id ∧ u.is_active = true := by
  rw [Option.isSome_iff_ne_none]
  unfold findActiveSession
  rw [Ne, List.findSome?_eq_none_iff]
  push_neg
  exact exists_congr fun s => and_congr_right fun _ =>
    sessionPred_iff db.users token now s

/-- Claim C3: with a token present, CheckSession answers 200 with
`valid = true` and the account summary exactly when the store has a
session with that token, unexpired and owned by an active account; in
every other case (unknown token, expired session, disabled account) it
returns the one fixed `Invalid or expired session` response. -/
theorem session_check_valid_iff (db : DB) (h : Headers) (now : Nat) (t : String)
    (ht : sessionTokenOf h = some t) (hne : (t == "") = false) :
    ((∃ s ∈ db.user_sessions, s.session_token = t ∧ now < s.expires_at ∧
        ∃ u ∈ db.users, u.id = s.user_id ∧ u.is_active = true) ↔
      ((handle_session_check db h now).statusCode = 200 ∧
        ∃ uo, (handle_session_check db h now).body = Body.sessionInfo true uo)) ∧
    (¬ (∃ s ∈ db.user_sessions, s.session_token = t ∧ now < s.expires_at ∧
        ∃ u ∈ db.users, u.id = s.user_id ∧ u.is_active = true) →
      handle_session_check db h now = invalidSessionResp) := by
  cases hfa : findActiveSession db t now with
  | none =>
    have hnot : ¬ (∃ s ∈ db.user_sessions, s.session_token = t ∧ now < s.expires_at ∧
        ∃ u ∈ db.users, u.id = s.user_id ∧ u.is_active = true) := by
      rw [← findActiveSession_isSome_iff]
      simp [hfa]
    have hresp : handle_session_check db h now = invalidSessionResp := by
      simp [handle_session_check, ht, hne, hfa]
    refine ⟨?_, fun _ => hresp⟩
    rw [hresp]
    constructor
    · intro hx
      exact absurd hx hnot
    · rintro ⟨hc, -⟩
      exact absurd hc (by simp [invalidSessionResp])
  | some su =>
    have hyes : ∃ s ∈ db.user_sessions, s.session_token = t ∧ now < s.expires_at ∧
        ∃ u ∈ db.users, u.id = s.user_id ∧ u.is_active = true := by
      rw [← findActiveSession_isSome_iff]
      simp [hfa]
    have hresp : handle_session_check db h now =
        { statusCode := 200,
          body := .sessionInfo true
            { id := su.1.user_id, email := su.2.email, userType := su.2.user_type,
              firstName := su.2.first_name, lastName := su.2.last_name,
              profileId :=
                if su.2.user_type == "client" then
                  (db.client_profiles.find? (fun p => p.user_id == su.1.user_id)).map
                    (fun p => p.id)
                else
                  (db.freelancer_profiles.find? (fun p => p.user_id == su.1.user_id)).map
                    (fun p => p.id) } } := by
      simp [handle_session_check, ht, hne, hfa]
    refine ⟨?_, fun hcontra => absurd hyes hcontra⟩
    rw [hresp]
    exact ⟨fun _ => ⟨rfl, _, rfl⟩, fun _ => hyes⟩

/-- Witness for C3: the sample store validates its live session at time
50 with a 200 `valid = true` response. -/
theorem session_check_valid_iff_witness :
    (handle_session_check dbFix hdrFix 50).statusCode = 200 ∧
    ∃ uo, (handle_session_check dbFix hdrFix 50).body = Body.sessionInfo true uo :=
  ((session_check_valid_iff dbFix hdrFix 50 "tok1" (by decide) (by decide)).1).1
    ⟨sessFix, by decide, by decide, by decide, userFix, by decide, by decide, by decide⟩

/-- Claim C5: Logout sets the matching sessions' expiry to the current
time instead of deleting them, so any CheckSession with the same token at
any time from the logout instant onwards returns the
`Invalid or expired session` response. -/
theorem logout_invalidates_forever (db : DB) (h : Headers) (now nowLater : Nat)
    (t : String) (ht : sessionTokenOf h = some t) (hne : (t == "") = false)
    (hle : now ≤ nowLater) :
    (handle_logout db h now).2.user_sessions.length = db.user_sessions.length ∧
    handle_session_check (handle_logout db h now).2 h nowLater = invalidSessionResp := by
  have hdb : (handle_logout db h now).2 =
      { db with user_sessions := db.user_sessions.map (fun s =>
          if s.session_token == t then { s with expires_at := now } else s) } := by
    simp [handle_logout, ht, hne]
  have hdec : decide (nowLater < now) = false := decide_eq_false (Nat.not_lt.mpr hle)
  have hfind : findActiveSession (handle_logout db h now).2 t nowLater = none := by
    rw [hdb]
    unfold findActiveSession
    rw [List.findSome?_eq_none_iff]
    intro x hx
    simp only [List.mem_map] at hx
    obtain ⟨s0, hs0, rfl⟩ := hx
    cases hts : (s0.session_token == t) with
    | true => simp [hts, hdec]
    | false => simp [hts]
  refine ⟨by rw [hdb]; simp, ?_⟩
  simp [handle_session_check, ht, hne, hfind]

/-- Witness for C5: logging out the sample session at time 50 makes the
time-60 session check fail. -/
theorem logout_invalidates_forever_witness :
    (handle_logout dbFix hdrFix 50).2.user_sessions.length = dbFix.user_sessions.length ∧
    handle_session_check (handle_logout dbFix hdrFix 50).2 hdrFix 60 = invalidSessionResp :=
  logout_invalidates_forever dbFix hdrFix 50 60 "tok1" (by decide) (by decide) (by decide)
